import Mathlib

/-
Verification of the chatbot_poc HTTP service (src/app.py) against its
specification.  The Python module is embedded shallowly: the YAML config
load and model load become an explicit startup function over an abstract
config source, the llama_cpp model becomes an abstract function from a
model invocation record to either an exception message or a response, and
each FastAPI handler becomes a pure function that also records the model
invocations it makes and the final process-wide state.
-/

/-- The subset of Python whitespace characters relevant to str.strip on
the ASCII range: space, tab, newline, carriage return, vertical tab and
form feed. -/
def pyIsSpace (c : Char) : Bool :=
  c == ' ' || c == '\t' || c == '\n' || c == '\r' || c == '\x0b' || c == '\x0c'

/-- Python str.strip(): remove leading and trailing whitespace. -/
def pyStrip (s : String) : String :=
  String.mk (((s.data.dropWhile pyIsSpace).reverse.dropWhile pyIsSpace).reverse)

/-- Pydantic model ChatRequest (src/app.py lines 44 to 46) after
validation: prompt is a string, max_tokens an integer. -/
structure ChatRequest where
  prompt : String
  max_tokens : Int
deriving Repr, DecidableEq

/-- Pydantic model ChatResponse (src/app.py lines 49 to 50). -/
structure ChatResponse where
  text : String
deriving Repr, DecidableEq

/-- A raw request body before pydantic validation: max_tokens may be
omitted, in which case the field default 100 applies. -/
structure RequestBody where
  prompt : String
  max_tokens : Option Int
deriving Repr, DecidableEq

/-- Pydantic construction of a ChatRequest from a body: the declared
default for max_tokens is 100 (src/app.py line 46). -/
def parseChatRequest (body : RequestBody) : ChatRequest :=
  { prompt := body.prompt
    max_tokens := body.max_tokens.getD 100 }

/-- One choice of a llama_cpp completion: response["choices"][i]["text"]. -/
structure Choice where
  text : String
deriving Repr, DecidableEq

/-- The llama_cpp completion object: response["choices"]. -/
structure ModelResponse where
  choices : List Choice
deriving Repr, DecidableEq

/-- The arguments of one invocation of the model object
(src/app.py lines 65 to 70 and 92 to 97). -/
structure ModelCall where
  prompt : String
  max_tokens : Int
  stop : List String
  echo : Bool
deriving Repr, DecidableEq

/-- An abstract model behavior: each invocation either raises an
exception (carried as its message string) or returns a completion. -/
def ModelBehavior : Type :=
  ModelCall → Except String ModelResponse

/-- The process-wide state established at startup (src/app.py lines
22 to 24 and 32 to 37): the three config globals and the loaded model. -/
structure ServerState where
  MODEL_PATH : String
  SYSTEM_PROMPT_RHYMES : String
  SYSTEM_PROMPT_SEXY : String
  model : ModelBehavior

/-- The HTTP-visible outcome of a handler: a 200 with a ChatResponse, or
an HTTPException with a status code and a detail string. -/
inductive HandlerResult where
  | ok (response : ChatResponse)
  | httpException (status : Nat) (detail : String)
deriving Repr, DecidableEq

/-- What one handler run produces: the HTTP result, the list of model
invocations it performed, and the process-wide state afterwards. -/
structure HandlerOutcome where
  result : HandlerResult
  calls : List ModelCall
  finalState : ServerState

/-- The model invocation built by the chat_rhymes handler (src/app.py
lines 58 to 70): the f-string template over SYSTEM_PROMPT_RHYMES and the
request prompt, the request max_tokens, stop ["Human:"], echo false. -/
def rhymesCall (st : ServerState) (request : ChatRequest) : ModelCall :=
  { prompt := "System: " ++ st.SYSTEM_PROMPT_RHYMES ++ "\n\nHuman: " ++
      request.prompt ++ "\n\nAssistant:"
    max_tokens := request.max_tokens
    stop := ["Human:"]
    echo := false }

/-- The POST chat_rhymes handler (src/app.py lines 54 to 77).  It builds
the full prompt, invokes the model, extracts and strips the first choice
text; any exception is converted to HTTPException(500, str(e)).  Indexing
an empty choices list raises IndexError, whose message is the string
given below. -/
def chat_rhymes (st : ServerState) (request : ChatRequest) : HandlerOutcome :=
  match st.model (rhymesCall st request) with
  | Except.error e =>
      { result := HandlerResult.httpException 500 e
        calls := [rhymesCall st request]
        finalState := st }
  | Except.ok response =>
      match response.choices with
      | [] =>
          { result := HandlerResult.httpException 500 "list index out of range"
            calls := [rhymesCall st request]
            finalState := st }
      | choice :: _ =>
          { result := HandlerResult.ok { text := pyStrip choice.text }
            calls := [rhymesCall st request]
            finalState := st }

/-- The model invocation built by the chat_sexy handler (src/app.py
lines 85 to 97), duplicated from the rhymes one except for the system
prompt global it reads. -/
def sexyCall (st : ServerState) (request : ChatRequest) : ModelCall :=
  { prompt := "System: " ++ st.SYSTEM_PROMPT_SEXY ++ "\n\nHuman: " ++
      request.prompt ++ "\n\nAssistant:"
    max_tokens := request.max_tokens
    stop := ["Human:"]
    echo := false }

/-- The POST chat_sexy handler (src/app.py lines 81 to 104), a duplicate
of chat_rhymes reading SYSTEM_PROMPT_SEXY instead. -/
def chat_sexy (st : ServerState) (request : ChatRequest) : HandlerOutcome :=
  match st.model (sexyCall st request) with
  | Except.error e =>
      { result := HandlerResult.httpException 500 e
        calls := [sexyCall st request]
        finalState := st }
  | Except.ok response =>
      match response.choices with
      | [] =>
          { result := HandlerResult.httpException 500 "list index out of range"
            calls := [sexyCall st request]
            finalState := st }
      | choice :: _ =>
          { result := HandlerResult.ok { text := pyStrip choice.text }
            calls := [sexyCall st request]
            finalState := st }

/-- The model invocation of the parametrized handler: the same template
over the bound system prompt parameter. -/
def paramCall (system_prompt : String) (request : ChatRequest) : ModelCall :=
  { prompt := "System: " ++ system_prompt ++ "\n\nHuman: " ++
      request.prompt ++ "\n\nAssistant:"
    max_tokens := request.max_tokens
    stop := ["Human:"]
    echo := false }

/-- The single parametrized handler the spec design notes describe: the
system prompt is passed as a bound configuration value instead of being
read from a fixed global inside a duplicated body. -/
def chatParametrized (system_prompt : String) (st : ServerState)
    (request : ChatRequest) : HandlerOutcome :=
  match st.model (paramCall system_prompt request) with
  | Except.error e =>
      { result := HandlerResult.httpException 500 e
        calls := [paramCall system_prompt request]
        finalState := st }
  | Except.ok response =>
      match response.choices with
      | [] =>
          { result := HandlerResult.httpException 500 "list index out of range"
            calls := [paramCall system_prompt request]
            finalState := st }
      | choice :: _ =>
          { result := HandlerResult.ok { text := pyStrip choice.text }
            calls := [paramCall system_prompt request]
            finalState := st }

/-- Modelled from the spec: the single-prompt variant of the service
exposes POST /chat, whose handler is not under src (only the dual-prompt
variant src/app.py is); per sections 4.3, 6 and 8 of the spec this is the
model invocation it builds: the same literal template over the one
configured system_prompt, the request max_tokens, stop ["Human:"],
echo false. -/
def singleCall (system_prompt : String) (request : ChatRequest) : ModelCall :=
  { prompt := "System: " ++ system_prompt ++ "\n\nHuman: " ++
      request.prompt ++ "\n\nAssistant:"
    max_tokens := request.max_tokens
    stop := ["Human:"]
    echo := false }

/-- Modelled from the spec: the POST /chat handler of the single-prompt
variant, absent from src.  Per sections 4.3, 6 and 8 of the spec it makes
the invocation singleCall, then strips and returns the first choice text,
converting any exception to a 500 whose detail is the error message. -/
def chatSingle (system_prompt : String) (model : ModelBehavior)
    (request : ChatRequest) : HandlerResult × List ModelCall :=
  match model (singleCall system_prompt request) with
  | Except.error e =>
      (HandlerResult.httpException 500 e, [singleCall system_prompt request])
  | Except.ok response =>
      match response.choices with
      | [] =>
          (HandlerResult.httpException 500 "list index out of range",
            [singleCall system_prompt request])
      | choice :: _ =>
          (HandlerResult.ok { text := pyStrip choice.text },
            [singleCall system_prompt request])

/-- The config file name declared in src/app.py line 15. -/
def config_file_name : String := "config.yaml"

/-- What the attempt to open and parse the config file can encounter:
the file is absent, yaml.safe_load raises with some message, or parsing
yields a mapping of string keys to string values. -/
inductive ConfigSource where
  | missing
  | unparsable (err : String)
  | parsed (config : List (String × String))
deriving Repr, DecidableEq

/-- Opening and parsing the config file (src/app.py lines 19 to 20):
a missing file raises FileNotFoundError with the message below, a parse
failure propagates the yaml error, otherwise the mapping is returned. -/
def readConfig : ConfigSource → Except String (List (String × String))
  | ConfigSource.missing =>
      Except.error "[Errno 2] No such file or directory: \x27config.yaml\x27"
  | ConfigSource.unparsable err => Except.error err
  | ConfigSource.parsed config => Except.ok config

/-- Python dict subscription config[key]: the first binding of the key,
or a KeyError whose str() is the key in single quotes. -/
def dictGet (config : List (String × String)) (key : String) :
    Except String String :=
  match config.find? (fun kv => kv.1 == key) with
  | some kv => Except.ok kv.2
  | none => Except.error ("\x27" ++ key ++ "\x27")

/-- The three required config keys, in the order src/app.py reads them
(lines 22 to 24). -/
def requiredKeys : List String :=
  ["model_path", "system_prompt_rhymes", "system_prompt_sexy"]

/-- The body of the first try block (src/app.py lines 18 to 24): read
and parse the config, then extract the three globals; the first failure
propagates as the exception message. -/
def loadGlobals (src : ConfigSource) :
    Except String (String × String × String) :=
  match readConfig src with
  | Except.error e => Except.error e
  | Except.ok config =>
    match dictGet config "model_path" with
    | Except.error e => Except.error e
    | Except.ok mp =>
      match dictGet config "system_prompt_rhymes" with
      | Except.error e => Except.error e
      | Except.ok spr =>
        match dictGet config "system_prompt_sexy" with
        | Except.error e => Except.error e
        | Except.ok sps => Except.ok (mp, spr, sps)

/-- How module initialization ends: either the process printed a
diagnostic and exited (src/app.py lines 26 to 27 and 39 to 40) before
any route could be served or any port bound, or the full server state is
established and the app can serve requests. -/
inductive StartupResult where
  | exited (message : String)
  | serving (st : ServerState)

/-- Module initialization (src/app.py lines 18 to 40): load the config
globals, then load the model from MODEL_PATH; each try block converts
its exception to a printed diagnostic followed by exit().  The Llama
constructor is abstract: from a model path it either raises or yields a
model behavior. -/
def startup (src : ConfigSource)
    (llamaLoad : String → Except String ModelBehavior) : StartupResult :=
  match loadGlobals src with
  | Except.error e =>
      StartupResult.exited
        ("There is an issue with config file \x27" ++ config_file_name ++
          "\x27: " ++ e)
  | Except.ok (mp, spr, sps) =>
      match llamaLoad mp with
      | Except.error e =>
          StartupResult.exited ("Failed to load the model: " ++ e)
      | Except.ok m =>
          StartupResult.serving
            { MODEL_PATH := mp
              SYSTEM_PROMPT_RHYMES := spr
              SYSTEM_PROMPT_SEXY := sps
              model := m }

/-- Fixed witness model: always returns one choice whose text has
leading and trailing whitespace. -/
def modelOkW : ModelBehavior :=
  fun _ => Except.ok { choices := [{ text := "  hello \n" }] }

/-- Fixed witness model: always raises with message boom. -/
def modelErrW : ModelBehavior :=
  fun _ => Except.error "boom"

/-- A witness server state using modelOkW. -/
def stA : ServerState :=
  { MODEL_PATH := "m.gguf"
    SYSTEM_PROMPT_RHYMES := "R"
    SYSTEM_PROMPT_SEXY := "S1"
    model := modelOkW }

/-- A witness server state agreeing with stA except for the sexy
prompt. -/
def stB : ServerState :=
  { MODEL_PATH := "m.gguf"
    SYSTEM_PROMPT_RHYMES := "R"
    SYSTEM_PROMPT_SEXY := "S2"
    model := modelOkW }

/-- A witness server state whose model always raises. -/
def stE : ServerState :=
  { MODEL_PATH := "m.gguf"
    SYSTEM_PROMPT_RHYMES := "R"
    SYSTEM_PROMPT_SEXY := "S1"
    model := modelErrW }

/-- A witness request. -/
def reqW : ChatRequest :=
  { prompt := "hi", max_tokens := 7 }

/-- A witness model-load function that always raises. -/
def llamaFailW : String → Except String ModelBehavior :=
  fun _ => Except.error "model file not found"

/-- Helper: chat_rhymes always performs exactly the one invocation
rhymesCall, whatever the model does. -/
theorem chat_rhymes_calls_eq (st : ServerState) (request : ChatRequest) :
    (chat_rhymes st request).calls = [rhymesCall st request] := by
  unfold chat_rhymes
  cases st.model (rhymesCall st request) with
  | error e => rfl
  | ok response =>
      obtain ⟨choices⟩ := response
      cases choices <;> rfl

/-- Helper: chat_sexy always performs exactly the one invocation
sexyCall, whatever the model does. -/
theorem chat_sexy_calls_eq (st : ServerState) (request : ChatRequest) :
    (chat_sexy st request).calls = [sexyCall st request] := by
  unfold chat_sexy
  cases st.model (sexyCall st request) with
  | error e => rfl
  | ok response =>
      obtain ⟨choices⟩ := response
      cases choices <;> rfl

/-- Helper: chat_rhymes leaves the process-wide state unchanged. -/
theorem chat_rhymes_state_eq (st : ServerState) (request : ChatRequest) :
    (chat_rhymes st request).finalState = st := by
  unfold chat_rhymes
  cases st.model (rhymesCall st request) with
  | error e => rfl
  | ok response =>
      obtain ⟨choices⟩ := response
      cases choices <;> rfl

/-- Helper: chat_sexy leaves the process-wide state unchanged. -/
theorem chat_sexy_state_eq (st : ServerState) (request : ChatRequest) :
    (chat_sexy st request).finalState = st := by
  unfold chat_sexy
  cases st.model (sexyCall st request) with
  | error e => rfl
  | ok response =>
      obtain ⟨choices⟩ := response
      cases choices <;> rfl

/-- C1: for every request handled by either endpoint, the prompt string
passed to the model equals exactly "System: " ++ S ++ "\n\nHuman: " ++ P
++ "\n\nAssistant:", where S is that endpoint
system prompt (SYSTEM_PROMPT_RHYMES or SYSTEM_PROMPT_SEXY respectively)
and P is the request prompt field. -/
theorem prompt_template_exact (st : ServerState) (request : ChatRequest) :
    (chat_rhymes st request).calls.map ModelCall.prompt =
      ["System: " ++ st.SYSTEM_PROMPT_RHYMES ++ "\n\nHuman: " ++
        request.prompt ++ "\n\nAssistant:"] ∧
    (chat_sexy st request).calls.map ModelCall.prompt =
      ["System: " ++ st.SYSTEM_PROMPT_SEXY ++ "\n\nHuman: " ++
        request.prompt ++ "\n\nAssistant:"] := by
  rw [chat_rhymes_calls_eq, chat_sexy_calls_eq]
  exact ⟨rfl, rfl⟩

/-- C2: for every request on which the model call succeeds with a first
choice, the returned ChatResponse text equals that first choice text
with leading and trailing whitespace removed, on both endpoints. -/
theorem response_text_stripped (st : ServerState) (request : ChatRequest)
    (response : ModelResponse) (choice : Choice) (rest : List Choice)
    (hchoices : response.choices = choice :: rest) :
    (st.model (rhymesCall st request) = Except.ok response →
      (chat_rhymes st request).result =
        HandlerResult.ok { text := pyStrip choice.text }) ∧
    (st.model (sexyCall st request) = Except.ok response →
      (chat_sexy st request).result =
        HandlerResult.ok { text := pyStrip choice.text }) := by
  obtain ⟨choices⟩ := response
  have hc : choices = choice :: rest := hchoices
  subst hc
  constructor
  · intro hcall
    unfold chat_rhymes
    rw [hcall]
  · intro hcall
    unfold chat_sexy
    rw [hcall]

/-- Witness for C2: on a concrete state whose model returns the single
choice text with surrounding whitespace, the response text is the
stripped form. -/
theorem response_text_stripped_witness :
    (chat_rhymes stA reqW).result = HandlerResult.ok { text := "hello" } := by
  have h := (response_text_stripped stA reqW
    { choices := [{ text := "  hello \n" }] } { text := "  hello \n" } []
    rfl).1 rfl
  rw [h]
  decide

/-- C3: for every request on which the model call raises, the endpoint
returns HTTP 500 with the exception message as detail, and the
process-wide state is unchanged, on both endpoints. -/
theorem model_error_returns_500 (st : ServerState) (request : ChatRequest)
    (e : String) :
    (st.model (rhymesCall st request) = Except.error e →
      (chat_rhymes st request).result = HandlerResult.httpException 500 e ∧
      (chat_rhymes st request).finalState = st) ∧
    (st.model (sexyCall st request) = Except.error e →
      (chat_sexy st request).result = HandlerResult.httpException 500 e ∧
      (chat_sexy st request).finalState = st) := by
  constructor
  · intro hcall
    unfold chat_rhymes
    rw [hcall]
    exact ⟨rfl, rfl⟩
  · intro hcall
    unfold chat_sexy
    rw [hcall]
    exact ⟨rfl, rfl⟩

/-- Witness for C3: on a concrete state whose model raises boom, the
rhymes endpoint yields a 500 with detail boom and the state is kept. -/
theorem model_error_returns_500_witness :
    (chat_rhymes stE reqW).result = HandlerResult.httpException 500 "boom" ∧
    (chat_rhymes stE reqW).finalState = stE :=
  (model_error_returns_500 stE reqW "boom").1 rfl

/-- Helper: if a required key has no binding in the parsed config
mapping, extracting the globals fails with some exception. -/
theorem loadGlobals_missing_key (config : List (String × String))
    (key : String) (hmem : key ∈ requiredKeys)
    (hfind : config.find? (fun kv => kv.1 == key) = none) :
    ∃ e, loadGlobals (ConfigSource.parsed config) = Except.error e := by
  have hmem3 : key = "model_path" ∨ key = "system_prompt_rhymes" ∨
      key = "system_prompt_sexy" := by
    simpa [requiredKeys] using hmem
  rcases hmem3 with rfl | rfl | rfl
  · refine ⟨"\x27model_path\x27", ?_⟩
    simp only [loadGlobals, readConfig, dictGet, hfind]
    rfl
  · cases hmp : config.find? (fun kv => kv.1 == "model_path") with
    | none =>
        exact ⟨"\x27model_path\x27",
          by simp only [loadGlobals, readConfig, dictGet, hmp]; rfl⟩
    | some kv =>
        exact ⟨"\x27system_prompt_rhymes\x27",
          by simp only [loadGlobals, readConfig, dictGet, hmp, hfind]; rfl⟩
  · cases hmp : config.find? (fun kv => kv.1 == "model_path") with
    | none =>
        exact ⟨"\x27model_path\x27",
          by simp only [loadGlobals, readConfig, dictGet, hmp]; rfl⟩
    | some kv =>
        cases hr : config.find? (fun kv => kv.1 == "system_prompt_rhymes") with
        | none =>
            exact ⟨"\x27system_prompt_rhymes\x27",
              by simp only [loadGlobals, readConfig, dictGet, hmp, hr]; rfl⟩
        | some kv2 =>
            exact ⟨"\x27system_prompt_sexy\x27",
              by simp only [loadGlobals, readConfig, dictGet, hmp, hr, hfind]; rfl⟩

/-- C4: for every startup failure, whether the config file is missing,
unparsable, missing a required key, or the model fails to load, module
initialization ends in exited, printing a diagnostic, so no port is
bound and no request is ever served with a partial configuration. -/
theorem startup_failure_exits (src : ConfigSource)
    (llamaLoad : String → Except String ModelBehavior)
    (h : src = ConfigSource.missing
      ∨ (∃ err, src = ConfigSource.unparsable err)
      ∨ (∃ config key, src = ConfigSource.parsed config ∧
          key ∈ requiredKeys ∧
          config.find? (fun kv => kv.1 == key) = none)
      ∨ (∃ mp spr sps e, loadGlobals src = Except.ok (mp, spr, sps) ∧
          llamaLoad mp = Except.error e)) :
    ∃ message, startup src llamaLoad = StartupResult.exited message := by
  rcases h with rfl | ⟨err, rfl⟩ | ⟨config, key, rfl, hmem, hfind⟩ |
    ⟨mp, spr, sps, e, hok, herr⟩
  · exact ⟨_, rfl⟩
  · exact ⟨_, rfl⟩
  · obtain ⟨e, he⟩ := loadGlobals_missing_key config key hmem hfind
    refine ⟨"There is an issue with config file \x27" ++ config_file_name ++
      "\x27: " ++ e, ?_⟩
    unfold startup
    rw [he]
  · refine ⟨"Failed to load the model: " ++ e, ?_⟩
    unfold startup
    rw [hok]
    simp only [herr]

/-- Witness for C4: a parsed config lacking system_prompt_sexy makes
startup exit. -/
theorem startup_failure_exits_witness :
    ∃ message,
      startup
        (ConfigSource.parsed
          [("model_path", "m.gguf"), ("system_prompt_rhymes", "R")])
        llamaFailW = StartupResult.exited message :=
  startup_failure_exits _ _
    (Or.inr (Or.inr (Or.inl
      ⟨[("model_path", "m.gguf"), ("system_prompt_rhymes", "R")],
        "system_prompt_sexy", rfl, by decide, rfl⟩)))

/-- C5: for every request body omitting max_tokens, the ChatRequest is
constructed with max_tokens 100 and both handlers invoke the model with
max_tokens 100. -/
theorem omitted_max_tokens_default (st : ServerState) (body : RequestBody)
    (h : body.max_tokens = none) :
    (parseChatRequest body).max_tokens = 100 ∧
    (chat_rhymes st (parseChatRequest body)).calls.map
      ModelCall.max_tokens = [100] ∧
    (chat_sexy st (parseChatRequest body)).calls.map
      ModelCall.max_tokens = [100] := by
  have h100 : (parseChatRequest body).max_tokens = 100 := by
    simp [parseChatRequest, h]
  refine ⟨h100, ?_, ?_⟩
  · rw [chat_rhymes_calls_eq]
    simp [rhymesCall, h100]
  · rw [chat_sexy_calls_eq]
    simp [sexyCall, h100]

/-- Witness for C5: a concrete body without max_tokens yields 100
everywhere. -/
theorem omitted_max_tokens_default_witness :
    (parseChatRequest { prompt := "hi", max_tokens := none }).max_tokens =
      100 ∧
    (chat_rhymes stA
      (parseChatRequest { prompt := "hi", max_tokens := none })).calls.map
      ModelCall.max_tokens = [100] ∧
    (chat_sexy stA
      (parseChatRequest { prompt := "hi", max_tokens := none })).calls.map
      ModelCall.max_tokens = [100] :=
  omitted_max_tokens_default stA { prompt := "hi", max_tokens := none } rfl

/-- C6: for every request on either endpoint, the model is invoked
exactly once, with stop exactly ["Human:"], echo false, and max_tokens
equal to the request field, and no other invocation argument. -/
theorem model_call_parameters (st : ServerState) (request : ChatRequest) :
    (chat_rhymes st request).calls =
      [{ prompt := "System: " ++ st.SYSTEM_PROMPT_RHYMES ++
          "\n\nHuman: " ++ request.prompt ++ "\n\nAssistant:"
         max_tokens := request.max_tokens
         stop := ["Human:"]
         echo := false }] ∧
    (chat_sexy st request).calls =
      [{ prompt := "System: " ++ st.SYSTEM_PROMPT_SEXY ++
          "\n\nHuman: " ++ request.prompt ++ "\n\nAssistant:"
         max_tokens := request.max_tokens
         stop := ["Human:"]
         echo := false }] :=
  ⟨chat_rhymes_calls_eq st request, chat_sexy_calls_eq st request⟩

/-- C7: the two duplicated handler bodies compute the same function of
the system prompt and the request: each equals the single parametrized
handler applied to its own configured prompt, differing in no other
way. -/
theorem handlers_equal_parametrized (st : ServerState)
    (request : ChatRequest) :
    chat_rhymes st request =
      chatParametrized st.SYSTEM_PROMPT_RHYMES st request ∧
    chat_sexy st request =
      chatParametrized st.SYSTEM_PROMPT_SEXY st request :=
  ⟨rfl, rfl⟩

/-- C8: the example request posted to the single-prompt /chat endpoint
with configured system_prompt "You are helpful." makes exactly one model
invocation, with the fully concatenated prompt, stop ["Human:"],
max_tokens 50 and echo false, for every model behavior. -/
theorem chat_single_example_call (model : ModelBehavior) :
    (chatSingle "You are helpful." model
      { prompt := "Tell me a joke", max_tokens := 50 }).2 =
      [{ prompt :=
          "System: You are helpful.\n\nHuman: Tell me a joke\n\nAssistant:"
         max_tokens := 50
         stop := ["Human:"]
         echo := false }] := by
  have h : (chatSingle "You are helpful." model
      { prompt := "Tell me a joke", max_tokens := 50 }).2 =
      [singleCall "You are helpful."
        { prompt := "Tell me a joke", max_tokens := 50 }] := by
    unfold chatSingle
    cases model (singleCall "You are helpful."
        { prompt := "Tell me a joke", max_tokens := 50 }) with
    | error e => rfl
    | ok response =>
        obtain ⟨choices⟩ := response
        cases choices <;> rfl
  rw [h]
  decide

/-- C9: every request handler leaves the process-wide state unchanged,
whether the model call succeeds or raises: the configured globals and
the loaded model after the handler equal their startup values. -/
theorem handler_preserves_state (st : ServerState) (request : ChatRequest) :
    (chat_rhymes st request).finalState = st ∧
    (chat_sexy st request).finalState = st :=
  ⟨chat_rhymes_state_eq st request, chat_sexy_state_eq st request⟩

/-- C10: noninterference between the two configured prompts: two server
states sharing the model behavior produce, for every request, the same
result and the same model invocations on chat_rhymes whenever they agree
on SYSTEM_PROMPT_RHYMES (regardless of SYSTEM_PROMPT_SEXY), and
symmetrically on chat_sexy. -/
theorem prompt_noninterference (st1 st2 : ServerState)
    (request : ChatRequest) (hmodel : st1.model = st2.model) :
    (st1.SYSTEM_PROMPT_RHYMES = st2.SYSTEM_PROMPT_RHYMES →
      (chat_rhymes st1 request).result = (chat_rhymes st2 request).result ∧
      (chat_rhymes st1 request).calls = (chat_rhymes st2 request).calls) ∧
    (st1.SYSTEM_PROMPT_SEXY = st2.SYSTEM_PROMPT_SEXY →
      (chat_sexy st1 request).result = (chat_sexy st2 request).result ∧
      (chat_sexy st1 request).calls = (chat_sexy st2 request).calls) := by
  constructor
  · intro hp
    have hc : rhymesCall st1 request = rhymesCall st2 request := by
      simp [rhymesCall, hp]
    unfold chat_rhymes
    rw [hc, hmodel]
    cases st2.model (rhymesCall st2 request) with
    | error e => exact ⟨rfl, rfl⟩
    | ok response =>
        obtain ⟨choices⟩ := response
        cases choices <;> exact ⟨rfl, rfl⟩
  · intro hp
    have hc : sexyCall st1 request = sexyCall st2 request := by
      simp [sexyCall, hp]
    unfold chat_sexy
    rw [hc, hmodel]
    cases st2.model (sexyCall st2 request) with
    | error e => exact ⟨rfl, rfl⟩
    | ok response =>
        obtain ⟨choices⟩ := response
        cases choices <;> exact ⟨rfl, rfl⟩

/-- Witness for C10: two concrete states differing only in the sexy
prompt give identical rhymes behavior. -/
theorem prompt_noninterference_witness :
    (chat_rhymes stA reqW).result = (chat_rhymes stB reqW).result ∧
    (chat_rhymes stA reqW).calls = (chat_rhymes stB reqW).calls :=
  (prompt_noninterference stA stB reqW rfl).1 rfl
